import Mathlib

/-!
Shallow embedding of the UV risk classification and skin sensitivity scoring
logic of the sun-protection application, together with theorems checking the
specification claims against it.

The embedded code lives in src/src/components/WeatherDisplay.js,
src/src/components/SkinTypeQuestionnaire.js and src/src/App.js.
-/

/-- A JavaScript numeric value as it reaches the classifier: either NaN or a
finite number, modelled as a rational. Every comparison with NaN is false in
JavaScript, which the helpers below reproduce. -/
inductive JSNum where
  | nan : JSNum
  | num : ℚ → JSNum
deriving DecidableEq, Repr

/-- JavaScript comparison x <= c, false when x is NaN. -/
def jsLe : JSNum → ℚ → Bool
  | JSNum.nan, _ => false
  | JSNum.num x, c => decide (x ≤ c)

/-- JavaScript comparison x >= c, false when x is NaN. -/
def jsGe : JSNum → ℚ → Bool
  | JSNum.nan, _ => false
  | JSNum.num x, c => decide (c ≤ x)

/-- The record returned by getUVMessage: a risk label, a display color and an
advisory sentence. -/
structure UVResult where
  message : String
  color : String
  protection : String
deriving DecidableEq, Repr

/-- Embedding of getUVMessage from WeatherDisplay.js lines 62-96 (the copy in
App.js lines 214-248 is textually identical): a top-down if chain on the UV
index whose final else catches everything the guarded branches miss. -/
def getUVMessage (uvIndex : JSNum) : UVResult :=
  if jsLe uvIndex 2 then
    ⟨"Low", "green", "Have fun outside!"⟩
  else if jsGe uvIndex 3 && jsLe uvIndex 5 then
    ⟨"Moderate", "yellow", "SPF is your BFF, cover up and use sunscreen!"⟩
  else if jsGe uvIndex 6 && jsLe uvIndex 7 then
    ⟨"High", "orange",
      "Sunburns are so last season, protect yourself and reduce your sun-time!"⟩
  else if jsGe uvIndex 8 && jsLe uvIndex 10 then
    ⟨"Very High", "red",
      "Avoid the Lobster Look, use sunscreen every 2 hours and minimise sun exposure!"⟩
  else
    ⟨"Extreme", "purple", "UV off the Charts! You should be off the sun!"⟩

/-- One protection icon of renderProtectionIcons: the imported image name, the
alt text and the caption shown under the icon. -/
structure Icon where
  src : String
  alt : String
  text : String
deriving DecidableEq, Repr

/-- The allIcons table of renderProtectionIcons, WeatherDisplay.js lines
202-210, in source order. -/
def allIcons : List Icon :=
  [ ⟨"sunglasses", "Sunglasses", "Use sunglasses"⟩,
    ⟨"sunscreen", "Sunscreen", "Wear sunscreen"⟩,
    ⟨"hat", "Hat", "Wear a hat"⟩,
    ⟨"clothes", "Clothes", "Wear protective clothing"⟩,
    ⟨"tree", "Tree", "Stay in shade"⟩,
    ⟨"umbrella", "Umbrella", "Reduce time in the sun"⟩,
    ⟨"house", "House", "Avoid the sun"⟩ ]

/-- The icon-selection logic of renderProtectionIcons, WeatherDisplay.js lines
212-221: slices of allIcons chosen by thresholds on the UV index, with the
final else showing all seven icons. JavaScript slice(0, n) is List.take n. -/
def iconsToShow (uvIndex : JSNum) : List Icon :=
  if jsLe uvIndex 2 then allIcons.take 4
  else if jsLe uvIndex 5 then allIcons.take 5
  else if jsLe uvIndex 7 then allIcons.take 6
  else allIcons

/-- JavaScript Math.round on a finite number: round half toward positive
infinity, that is the floor of x + 1/2. Used by fetchWeatherData line 138. -/
def jsRound (x : ℚ) : ℤ := ⌊x + 1/2⌋

/-- The UV pipeline of fetchWeatherData, WeatherDisplay.js line 138 onward:
the raw provider value is rounded to the nearest integer and the rounded
value is what getUVMessage classifies. -/
def classifyRawUV (raw : ℚ) : UVResult :=
  getUVMessage (JSNum.num ((jsRound raw : ℤ) : ℚ))

/-- The icons rendered for a raw provider value after the same rounding. -/
def iconsForRawUV (raw : ℚ) : List Icon :=
  iconsToShow (JSNum.num ((jsRound raw : ℤ) : ℚ))

/-- One questionnaire entry of SkinTypeQuestionnaire.js: the question text and
its five answer options. -/
structure Question where
  text : String
  options : List String
deriving DecidableEq, Repr

/-- The questions table of SkinTypeQuestionnaire.js lines 28-111, in source
order. -/
def questions : List Question :=
  [ ⟨"What color are your eyes?",
      ["Light blue, gray, green", "Blue, gray, or green", "Blue",
        "Dark Brown", "Brownish Black"]⟩,
    ⟨"What is your natural hair color?",
      ["Sandy red", "Blonde", "Chestnut/Dark Blonde", "Dark brown", "Black"]⟩,
    ⟨"What is your skin color (unexposed areas)?",
      ["Reddish", "Very Pale", "Pale with a beige tint", "Light brown",
        "Dark brown"]⟩,
    ⟨"Do you have freckles on unexposed areas?",
      ["Many", "Several", "Few", "Incidental", "None"]⟩,
    ⟨"What happens when you stay too long in the sun?",
      ["Painful redness, blistering, peeling", "Blistering followed by peeling",
        "Burns sometimes followed by peeling", "Rare burns", "Never had burns"]⟩,
    ⟨"To what degree do you turn brown?",
      ["Hardly or not at all", "Light color tan", "Reasonable tan",
        "Tan very easily", "Turn dark brown quickly"]⟩,
    ⟨"Do you turn brown after several hours of sun exposure?",
      ["Never", "Seldom", "Sometimes", "Often", "Always"]⟩,
    ⟨"How does your face react to the sun?",
      ["Very sensitive", "Sensitive", "Normal", "Very resistant",
        "Never had a problem"]⟩,
    ⟨"When did you last expose your body to the sun (or artificial sunlamp/tanning cream)?",
      ["More than 3 months ago", "2-3 months ago", "1-2 months ago",
        "Less than a month ago", "Less than 2 weeks ago"]⟩,
    ⟨"Do you expose your face to the sun?",
      ["Never", "Hardly ever", "Sometimes", "Often", "Always"]⟩ ]

/-- The skin type chosen from a total score by the if chain inside
handleAnswer, SkinTypeQuestionnaire.js lines 147-159 (identical in App.js
lines 337-347): closed upper bounds 6, 13, 20, 27, 34 with a final else. -/
def determineSkinType (score : ℤ) : String :=
  if score ≤ 6 then "type1"
  else if score ≤ 13 then "type2"
  else if score ≤ 20 then "type3"
  else if score ≤ 27 then "type4"
  else if score ≤ 34 then "type5"
  else "type6"

/-- The scoring fragment of handleAnswer, SkinTypeQuestionnaire.js lines
143-159: when every slot of the answers vector is non-null, the total score
is the reduce-sum of the vector and the skin type is chosen from it; when a
null remains the branch is skipped and no score or classification is
produced, modelled as none. -/
def scoreAnswers (answers : List (Option ℤ)) : Option (ℤ × String) :=
  if answers.all (fun a => a ≠ none) then
    let score := answers.foldl (fun acc curr => acc + curr.getD 0) 0
    some (score, determineSkinType score)
  else
    none

/-- The component state of SkinTypeQuestionnaire.js lines 128-132: the ten
answer slots, the current-question pointer, the result-shown flag, and the
computed skin type and total score. -/
structure QState where
  answers : List (Option ℤ)
  currentQuestion : ℕ
  allQuestionsAnswered : Bool
  determinedSkinType : String
  totalScore : ℤ
deriving DecidableEq, Repr

/-- The initial component state: ten null answers, pointer 0, result hidden. -/
def initialQState : QState :=
  ⟨List.replicate 10 none, 0, false, "", 0⟩

/-- The user actions the questionnaire component reacts to. -/
inductive QEvent where
  | answer (a : ℤ)
  | nextQuestion
  | prevQuestion
  | reset
  | showResult
deriving DecidableEq, Repr

/-- Embedding of handleAnswer, SkinTypeQuestionnaire.js lines 138-161: the
current slot is overwritten, and only when every slot is then non-null are
the total score and the skin type recomputed. The result-shown flag is never
touched here. -/
def handleAnswer (s : QState) (a : ℤ) : QState :=
  let newAnswers := s.answers.set s.currentQuestion (some a)
  if newAnswers.all (fun x => x ≠ none) then
    let score := newAnswers.foldl (fun acc curr => acc + curr.getD 0) 0
    { s with answers := newAnswers, totalScore := score,
             determinedSkinType := determineSkinType score }
  else
    { s with answers := newAnswers }

/-- Embedding of handleNextQuestion, lines 166-170: advance only while the
pointer is below questions.length - 1. -/
def handleNextQuestion (s : QState) : QState :=
  if s.currentQuestion < questions.length - 1 then
    { s with currentQuestion := s.currentQuestion + 1 }
  else s

/-- Embedding of handlePrevQuestion, lines 175-179: retreat only while the
pointer is above 0. -/
def handlePrevQuestion (s : QState) : QState :=
  if s.currentQuestion > 0 then
    { s with currentQuestion := s.currentQuestion - 1 }
  else s

/-- Embedding of handleReset, lines 185-191: every field returns to its
initial value. -/
def handleReset (_ : QState) : QState := initialQState

/-- The render guard of the Show Result button, line 358: the button exists
only when every answer slot is non-null. -/
def showResultEnabled (s : QState) : Bool :=
  s.answers.all (fun x => x ≠ none)

/-- One step of the questionnaire component: each event dispatches to the
handler the corresponding button invokes. The showResult event sets the
result-shown flag (the onClick of line 361) and is guarded by the render
condition of line 358; when the button is absent the event does nothing. -/
def qStep (s : QState) : QEvent → QState
  | QEvent.answer a => handleAnswer s a
  | QEvent.nextQuestion => handleNextQuestion s
  | QEvent.prevQuestion => handlePrevQuestion s
  | QEvent.reset => handleReset s
  | QEvent.showResult =>
      if showResultEnabled s then { s with allQuestionsAnswered := true } else s

/-! Helper lemmas shared by several claim theorems. -/

/-- Unfolding lemma: jsLe on a finite number is the rational comparison. -/
@[simp] theorem jsLe_num (x c : ℚ) : (jsLe (JSNum.num x) c = true) ↔ x ≤ c := by
  simp [jsLe]

/-- Unfolding lemma: jsGe on a finite number is the rational comparison. -/
@[simp] theorem jsGe_num (x c : ℚ) : (jsGe (JSNum.num x) c = true) ↔ c ≤ x := by
  simp [jsGe]

/-- The embedded questions table has exactly ten entries. -/
theorem questions_length : questions.length = 10 := rfl

/-- handleAnswer never moves the current-question pointer. -/
theorem handleAnswer_currentQuestion (s : QState) (a : ℤ) :
    (handleAnswer s a).currentQuestion = s.currentQuestion := by
  simp only [handleAnswer]
  split <;> rfl

/-- handleAnswer never touches the result-shown flag. -/
theorem handleAnswer_flag (s : QState) (a : ℤ) :
    (handleAnswer s a).allQuestionsAnswered = s.allQuestionsAnswered := by
  simp only [handleAnswer]
  split <;> rfl

/-- The reduce of handleAnswer over a fully-set vector is the plain sum. -/
theorem foldl_getD_map_some (l : List ℤ) (init : ℤ) :
    List.foldl (fun acc curr => acc + curr.getD 0) init (l.map some) = init + l.sum := by
  induction l generalizing init with
  | nil => simp
  | cons x xs ih =>
      simp only [List.map_cons, List.foldl_cons, List.sum_cons, Option.getD_some, ih]
      ring

/-- A vector of set answers passes the every-slot-non-null guard. -/
theorem all_ne_none_map_some (l : List ℤ) :
    ((l.map some).all fun a => a ≠ none) = true := by
  simp [List.all_eq_true]

/-- On a fully-set vector, scoreAnswers yields the sum and its skin type. -/
theorem scoreAnswers_map_some (l : List ℤ) :
    scoreAnswers (l.map some) = some (l.sum, determineSkinType l.sum) := by
  unfold scoreAnswers
  rw [if_pos (all_ne_none_map_some l), foldl_getD_map_some, zero_add]

/-- C1: getUVMessage assigns the label Low for uvIndex ≤ 2, Moderate on
[3,5], High on [6,7], Very High on [8,10] and Extreme above 10, and each of
the boundary values 2, 3, 5, 6, 7, 8, 10, 11 resolves exactly as listed. -/
theorem uv_classifier_tier_table :
    (∀ q : ℚ,
      (q ≤ 2 → (getUVMessage (JSNum.num q)).message = "Low") ∧
      (3 ≤ q ∧ q ≤ 5 → (getUVMessage (JSNum.num q)).message = "Moderate") ∧
      (6 ≤ q ∧ q ≤ 7 → (getUVMessage (JSNum.num q)).message = "High") ∧
      (8 ≤ q ∧ q ≤ 10 → (getUVMessage (JSNum.num q)).message = "Very High") ∧
      (10 < q → (getUVMessage (JSNum.num q)).message = "Extreme")) ∧
    (getUVMessage (JSNum.num 2)).message = "Low" ∧
    (getUVMessage (JSNum.num 3)).message = "Moderate" ∧
    (getUVMessage (JSNum.num 5)).message = "Moderate" ∧
    (getUVMessage (JSNum.num 6)).message = "High" ∧
    (getUVMessage (JSNum.num 7)).message = "High" ∧
    (getUVMessage (JSNum.num 8)).message = "Very High" ∧
    (getUVMessage (JSNum.num 10)).message = "Very High" ∧
    (getUVMessage (JSNum.num 11)).message = "Extreme" := by
  constructor
  · intro q
    refine ⟨fun h => ?_, fun h => ?_, fun h => ?_, fun h => ?_, fun h => ?_⟩
    · simp [getUVMessage, h]
    · have h1 : ¬ (q ≤ 2) := by linarith [h.1]
      simp [getUVMessage, h1, h.1, h.2]
    · have h1 : ¬ (q ≤ 2) := by linarith [h.1]
      have h2 : ¬ (q ≤ 5) := by linarith [h.1]
      simp [getUVMessage, h1, h2, h.1, h.2]
    · have h1 : ¬ (q ≤ 2) := by linarith [h.1]
      have h2 : ¬ (q ≤ 5) := by linarith [h.1]
      have h3 : ¬ (q ≤ 7) := by linarith [h.1]
      simp [getUVMessage, h1, h2, h3, h.1, h.2]
    · have h1 : ¬ (q ≤ 2) := by linarith
      have h2 : ¬ (q ≤ 5) := by linarith
      have h3 : ¬ (q ≤ 7) := by linarith
      have h4 : ¬ (q ≤ 10) := by linarith
      simp [getUVMessage, h1, h2, h3, h4]
  · refine ⟨?_, ?_, ?_, ?_, ?_, ?_, ?_, ?_⟩ <;> decide

/-- C1 witness: the tier theorem applied at the concrete index 4. -/
theorem uv_classifier_tier_table_witness :
    (getUVMessage (JSNum.num 4)).message = "Moderate" :=
  (uv_classifier_tier_table.1 4).2.1 ⟨by decide, by decide⟩

/-- C3: for every tier range the rendered measure list is the matching take
of the fixed allIcons order, with 4 icons for Low, 5 for Moderate, 6 for
High and all 7 for Very High and Extreme; each take extends the previous one
by appending a single icon, so lengths are monotonically non-decreasing. -/
theorem protection_measures_escalation :
    (∀ q : ℚ,
      (q ≤ 2 → iconsToShow (JSNum.num q) = allIcons.take 4) ∧
      (3 ≤ q ∧ q ≤ 5 → iconsToShow (JSNum.num q) = allIcons.take 5) ∧
      (6 ≤ q ∧ q ≤ 7 → iconsToShow (JSNum.num q) = allIcons.take 6) ∧
      (8 ≤ q ∧ q ≤ 10 → iconsToShow (JSNum.num q) = allIcons) ∧
      (10 < q → iconsToShow (JSNum.num q) = allIcons)) ∧
    allIcons.take 4 =
      [⟨"sunglasses", "Sunglasses", "Use sunglasses"⟩,
        ⟨"sunscreen", "Sunscreen", "Wear sunscreen"⟩,
        ⟨"hat", "Hat", "Wear a hat"⟩,
        ⟨"clothes", "Clothes", "Wear protective clothing"⟩] ∧
    allIcons.take 5 = allIcons.take 4 ++ [⟨"tree", "Tree", "Stay in shade"⟩] ∧
    allIcons.take 6 =
      allIcons.take 5 ++ [⟨"umbrella", "Umbrella", "Reduce time in the sun"⟩] ∧
    allIcons = allIcons.take 6 ++ [⟨"house", "House", "Avoid the sun"⟩] ∧
    (allIcons.take 4).length = 4 ∧ (allIcons.take 5).length = 5 ∧
    (allIcons.take 6).length = 6 ∧ allIcons.length = 7 := by
  constructor
  · intro q
    refine ⟨fun h => ?_, fun h => ?_, fun h => ?_, fun h => ?_, fun h => ?_⟩
    · simp [iconsToShow, h]
    · have h1 : ¬ (q ≤ 2) := by linarith [h.1]
      simp [iconsToShow, h1, h.2]
    · have h1 : ¬ (q ≤ 2) := by linarith [h.1]
      have h2 : ¬ (q ≤ 5) := by linarith [h.1]
      simp [iconsToShow, h1, h2, h.2]
    · have h1 : ¬ (q ≤ 2) := by linarith [h.1]
      have h2 : ¬ (q ≤ 5) := by linarith [h.1]
      have h3 : ¬ (q ≤ 7) := by linarith [h.1]
      simp [iconsToShow, h1, h2, h3]
    · have h1 : ¬ (q ≤ 2) := by linarith
      have h2 : ¬ (q ≤ 5) := by linarith
      have h3 : ¬ (q ≤ 7) := by linarith
      simp [iconsToShow, h1, h2, h3]
  · refine ⟨?_, ?_, ?_, ?_, ?_, ?_, ?_, ?_⟩ <;> decide

/-- C3 witness: the escalation theorem applied at the concrete index 1. -/
theorem protection_measures_escalation_witness :
    iconsToShow (JSNum.num 1) = allIcons.take 4 :=
  (protection_measures_escalation.1 1).1 (by decide)

/-- C10: every UV index strictly inside a gap between adjacent tier
intervals, and NaN, falls through every guarded branch of getUVMessage and
yields the Extreme result with color purple. -/
theorem uv_gap_values_extreme :
    (∀ q : ℚ,
      ((2 < q ∧ q < 3) ∨ (5 < q ∧ q < 6) ∨ (7 < q ∧ q < 8) ∨ (10 < q ∧ q < 11)) →
      getUVMessage (JSNum.num q) =
        ⟨"Extreme", "purple", "UV off the Charts! You should be off the sun!"⟩) ∧
    getUVMessage JSNum.nan =
      ⟨"Extreme", "purple", "UV off the Charts! You should be off the sun!"⟩ := by
  constructor
  · intro q h
    rcases h with h | h | h | h
    · have h1 : ¬ (q ≤ 2) := by linarith [h.1]
      have h2 : ¬ (3 ≤ q) := by linarith [h.2]
      have h3 : ¬ (6 ≤ q) := by linarith [h.2]
      have h4 : ¬ (8 ≤ q) := by linarith [h.2]
      simp [getUVMessage, h1, h2, h3, h4]
    · have h1 : ¬ (q ≤ 2) := by linarith [h.1]
      have h2 : ¬ (q ≤ 5) := by linarith [h.1]
      have h3 : ¬ (6 ≤ q) := by linarith [h.2]
      have h4 : ¬ (8 ≤ q) := by linarith [h.2]
      simp [getUVMessage, h1, h2, h3, h4]
    · have h1 : ¬ (q ≤ 2) := by linarith [h.1]
      have h2 : ¬ (q ≤ 5) := by linarith [h.1]
      have h3 : ¬ (q ≤ 7) := by linarith [h.1]
      have h4 : ¬ (8 ≤ q) := by linarith [h.2]
      simp [getUVMessage, h1, h2, h3, h4]
    · have h1 : ¬ (q ≤ 2) := by linarith [h.1]
      have h2 : ¬ (q ≤ 5) := by linarith [h.1]
      have h3 : ¬ (q ≤ 7) := by linarith [h.1]
      have h4 : ¬ (q ≤ 10) := by linarith [h.1]
      simp [getUVMessage, h1, h2, h3, h4]
  · decide

/-- C10 witness: the gap theorem applied at the concrete index 5/2. -/
theorem uv_gap_values_extreme_witness :
    getUVMessage (JSNum.num (Rat.mk' 5 2)) =
      ⟨"Extreme", "purple", "UV off the Charts! You should be off the sun!"⟩ :=
  uv_gap_values_extreme.1 (Rat.mk' 5 2) (Or.inl ⟨by decide, by decide⟩)

/-- C4 counterexample: getUVMessage performs no input validation; for NaN it
returns the Extreme tier record and for the negative index -1 the Low tier
record, instead of failing with an InvalidInput error, so the claim as
stated is false at these inputs. -/
theorem uv_invalid_input_counterexample :
    getUVMessage JSNum.nan =
      ⟨"Extreme", "purple", "UV off the Charts! You should be off the sun!"⟩ ∧
    getUVMessage (JSNum.num (-1)) = ⟨"Low", "green", "Have fun outside!"⟩ :=
  ⟨by decide, by decide⟩

/-- C4 amended: getUVMessage has no InvalidInput error path; every negative
index is silently classified Low (it satisfies the first guard) and NaN is
silently classified Extreme (it falls through every guard). -/
theorem uv_invalid_input_amended :
    (∀ q : ℚ, q < 0 →
      getUVMessage (JSNum.num q) = ⟨"Low", "green", "Have fun outside!"⟩) ∧
    getUVMessage JSNum.nan =
      ⟨"Extreme", "purple", "UV off the Charts! You should be off the sun!"⟩ := by
  constructor
  · intro q h
    have h1 : q ≤ 2 := by linarith
    simp [getUVMessage, h1]
  · decide

/-- C4 witness: the amended theorem applied at the concrete index -1. -/
theorem uv_invalid_input_amended_witness :
    getUVMessage (JSNum.num (-1)) = ⟨"Low", "green", "Have fun outside!"⟩ :=
  uv_invalid_input_amended.1 (-1) (by decide)

/-- C2: for every vector of ten integers in [0,4] the scorer yields the sum
of the vector as total score with the skin type chosen from it, and
determineSkinType maps 0-6 to type1, 7-13 to type2, 14-20 to type3, 21-27 to
type4, 28-34 to type5 and 35-40 to type6, with exact boundary pairs 6/7,
13/14, 20/21, 27/28 and 34/35. -/
theorem questionnaire_scoring_table :
    (∀ l : List ℤ, l.length = 10 → (∀ x ∈ l, 0 ≤ x ∧ x ≤ 4) →
      scoreAnswers (l.map some) = some (l.sum, determineSkinType l.sum)) ∧
    (∀ n : ℤ,
      (0 ≤ n ∧ n ≤ 6 → determineSkinType n = "type1") ∧
      (7 ≤ n ∧ n ≤ 13 → determineSkinType n = "type2") ∧
      (14 ≤ n ∧ n ≤ 20 → determineSkinType n = "type3") ∧
      (21 ≤ n ∧ n ≤ 27 → determineSkinType n = "type4") ∧
      (28 ≤ n ∧ n ≤ 34 → determineSkinType n = "type5") ∧
      (35 ≤ n ∧ n ≤ 40 → determineSkinType n = "type6")) ∧
    determineSkinType 6 = "type1" ∧ determineSkinType 7 = "type2" ∧
    determineSkinType 13 = "type2" ∧ determineSkinType 14 = "type3" ∧
    determineSkinType 20 = "type3" ∧ determineSkinType 21 = "type4" ∧
    determineSkinType 27 = "type4" ∧ determineSkinType 28 = "type5" ∧
    determineSkinType 34 = "type5" ∧ determineSkinType 35 = "type6" := by
  refine ⟨fun l _ _ => scoreAnswers_map_some l, fun n => ?_, ?_⟩
  · refine ⟨fun h => ?_, fun h => ?_, fun h => ?_, fun h => ?_, fun h => ?_,
      fun h => ?_⟩
    · simp [determineSkinType, h.2]
    · have h1 : ¬ (n ≤ 6) := by omega
      simp [determineSkinType, h1, h.2]
    · have h1 : ¬ (n ≤ 6) := by omega
      have h2 : ¬ (n ≤ 13) := by omega
      simp [determineSkinType, h1, h2, h.2]
    · have h1 : ¬ (n ≤ 6) := by omega
      have h2 : ¬ (n ≤ 13) := by omega
      have h3 : ¬ (n ≤ 20) := by omega
      simp [determineSkinType, h1, h2, h3, h.2]
    · have h1 : ¬ (n ≤ 6) := by omega
      have h2 : ¬ (n ≤ 13) := by omega
      have h3 : ¬ (n ≤ 20) := by omega
      have h4 : ¬ (n ≤ 27) := by omega
      simp [determineSkinType, h1, h2, h3, h4, h.2]
    · have h1 : ¬ (n ≤ 6) := by omega
      have h2 : ¬ (n ≤ 13) := by omega
      have h3 : ¬ (n ≤ 20) := by omega
      have h4 : ¬ (n ≤ 27) := by omega
      have h5 : ¬ (n ≤ 34) := by omega
      simp [determineSkinType, h1, h2, h3, h4, h5]
  · refine ⟨?_, ?_, ?_, ?_, ?_, ?_, ?_, ?_, ?_, ?_⟩ <;> decide

/-- C2 witness: the scoring theorem applied to the all-twos vector. -/
theorem questionnaire_scoring_table_witness :
    scoreAnswers ((List.replicate 10 (2 : ℤ)).map some) =
      some ((List.replicate 10 (2 : ℤ)).sum,
        determineSkinType (List.replicate 10 (2 : ℤ)).sum) :=
  questionnaire_scoring_table.1 (List.replicate 10 (2 : ℤ)) (by decide) (by decide)

/-- C5: a length-ten answers vector with a null slot never reaches the
scoring branch, so scoreAnswers yields none: no total score and no skin type
classification of any kind. -/
theorem incomplete_answers_no_result :
    ∀ l : List (Option ℤ), l.length = 10 → none ∈ l → scoreAnswers l = none := by
  intro l _ hmem
  unfold scoreAnswers
  rw [if_neg]
  intro hall
  rw [List.all_eq_true] at hall
  have hcontra := hall none hmem
  simp at hcontra

/-- C5 witness: the theorem applied to a vector whose first slot is null. -/
theorem incomplete_answers_no_result_witness :
    scoreAnswers (none :: List.map some [0, 0, 0, 0, 0, 0, 0, 0, 0]) = none :=
  incomplete_answers_no_result (none :: List.map some [0, 0, 0, 0, 0, 0, 0, 0, 0])
    (by decide) (by decide)

/-- C6 counterexample: the scorer has no range validation, so the fully-set
vector holding the out-of-range value 5 still produces a total score and a
skin type instead of an InvalidAnswer failure, refuting the claim. -/
theorem invalid_answer_counterexample :
    scoreAnswers (List.map some [5, 0, 0, 0, 0, 0, 0, 0, 0, 0]) =
      some (5, "type1") := by
  decide

/-- C6 amended: handleAnswer performs no range check at all; every length-ten
vector of set integer answers, in range or not, produces the sum as total
score together with its mapped skin type. In the running application an
out-of-range value cannot arise because handleAnswer only ever receives an
option index 0-4 from the buttons. -/
theorem invalid_answer_amended :
    ∀ l : List ℤ, l.length = 10 →
      scoreAnswers (l.map some) = some (l.sum, determineSkinType l.sum) :=
  fun l _ => scoreAnswers_map_some l

/-- C6 witness: the amended theorem applied to a vector holding 5 and -1. -/
theorem invalid_answer_amended_witness :
    scoreAnswers (List.map some [5, -1, 0, 0, 0, 0, 0, 0, 0, 0]) =
      some (([5, -1, 0, 0, 0, 0, 0, 0, 0, 0] : List ℤ).sum,
        determineSkinType ([5, -1, 0, 0, 0, 0, 0, 0, 0, 0] : List ℤ).sum) :=
  invalid_answer_amended [5, -1, 0, 0, 0, 0, 0, 0, 0, 0] (by decide)

/-- C7: the result-shown flag starts false, the only step that can turn it
true is the showResult event and that event is enabled only when every
answer slot is non-null, and an answer event never changes the flag, so
answering the tenth question does not by itself show the result. -/
theorem complete_only_via_show_result :
    initialQState.allQuestionsAnswered = false ∧
    (∀ s e, s.allQuestionsAnswered = false →
      (qStep s e).allQuestionsAnswered = true →
      e = QEvent.showResult ∧ showResultEnabled s = true) ∧
    (∀ s a, (qStep s (QEvent.answer a)).allQuestionsAnswered =
      s.allQuestionsAnswered) := by
  refine ⟨rfl, ?_, ?_⟩
  · intro s e hf ht
    cases e with
    | answer a =>
        rw [show qStep s (QEvent.answer a) = handleAnswer s a from rfl,
          handleAnswer_flag, hf] at ht
        exact absurd ht (by simp)
    | nextQuestion =>
        rw [show qStep s QEvent.nextQuestion = handleNextQuestion s from rfl] at ht
        unfold handleNextQuestion at ht
        split at ht <;> simp_all
    | prevQuestion =>
        rw [show qStep s QEvent.prevQuestion = handlePrevQuestion s from rfl] at ht
        unfold handlePrevQuestion at ht
        split at ht <;> simp_all
    | reset =>
        exact absurd ht (by simp [qStep, handleReset, initialQState])
    | showResult =>
        cases hen : showResultEnabled s with
        | true => exact ⟨rfl, rfl⟩
        | false =>
            rw [show qStep s QEvent.showResult =
              (if showResultEnabled s then { s with allQuestionsAnswered := true }
                else s) from rfl, hen] at ht
            simp_all
  · intro s a
    exact handleAnswer_flag s a

/-- C7 witness: from a fully-answered state with the result hidden, the
showResult step turns the flag on, and the theorem recovers that the event
was showResult and that the button guard held. -/
theorem complete_only_via_show_result_witness :
    QEvent.showResult = QEvent.showResult ∧
    showResultEnabled
      ⟨List.map some [0, 0, 0, 0, 0, 0, 0, 0, 0, 0], 0, false, "", 0⟩ = true :=
  complete_only_via_show_result.2.1
    ⟨List.map some [0, 0, 0, 0, 0, 0, 0, 0, 0, 0], 0, false, "", 0⟩
    QEvent.showResult (by decide) (by decide)

/-- C8: every questionnaire step keeps the current-question pointer within
[0,9] (it is a natural number, so the lower bound is inherent), advancing at
pointer 9 is a no-op that returns the state unchanged, and retreating at
pointer 0 is likewise a no-op. -/
theorem question_pointer_clamped :
    (∀ s e, s.currentQuestion ≤ 9 → (qStep s e).currentQuestion ≤ 9) ∧
    (∀ s, s.currentQuestion = 9 → qStep s QEvent.nextQuestion = s) ∧
    (∀ s, s.currentQuestion = 0 → qStep s QEvent.prevQuestion = s) := by
  refine ⟨?_, ?_, ?_⟩
  · intro s e h
    cases e with
    | answer a =>
        rw [show qStep s (QEvent.answer a) = handleAnswer s a from rfl,
          handleAnswer_currentQuestion]
        exact h
    | nextQuestion =>
        show (handleNextQuestion s).currentQuestion ≤ 9
        unfold handleNextQuestion
        rw [questions_length]
        split
        · next hlt =>
            show s.currentQuestion + 1 ≤ 9
            omega
        · exact h
    | prevQuestion =>
        show (handlePrevQuestion s).currentQuestion ≤ 9
        unfold handlePrevQuestion
        split
        · show s.currentQuestion - 1 ≤ 9
          omega
        · exact h
    | reset =>
        show initialQState.currentQuestion ≤ 9
        decide
    | showResult =>
        show (if showResultEnabled s then { s with allQuestionsAnswered := true }
          else s).currentQuestion ≤ 9
        split <;> exact h
  · intro s h
    show handleNextQuestion s = s
    unfold handleNextQuestion
    rw [questions_length, h]
    simp
  · intro s h
    show handlePrevQuestion s = s
    unfold handlePrevQuestion
    rw [h]
    simp

/-- C8 witness: the invariant applied to one advance from the initial state,
the advance no-op at pointer 9 and the retreat no-op at pointer 0. -/
theorem question_pointer_clamped_witness :
    (qStep initialQState QEvent.nextQuestion).currentQuestion ≤ 9 ∧
    qStep ⟨List.replicate 10 none, 9, false, "", 0⟩ QEvent.nextQuestion =
      ⟨List.replicate 10 none, 9, false, "", 0⟩ ∧
    qStep initialQState QEvent.prevQuestion = initialQState :=
  ⟨question_pointer_clamped.1 initialQState QEvent.nextQuestion (by decide),
    question_pointer_clamped.2.1 ⟨List.replicate 10 none, 9, false, "", 0⟩ rfl,
    question_pointer_clamped.2.2 initialQState rfl⟩

/-- C9: the raw provider value 6.4 rounds to 6 under the Math.round used by
fetchWeatherData, and the rounded value classifies as the High tier with 6
recommended measures. -/
theorem uv_rounding_scenario :
    jsRound (6.4 : ℚ) = 6 ∧
    classifyRawUV (6.4 : ℚ) =
      ⟨"High", "orange",
        "Sunburns are so last season, protect yourself and reduce your sun-time!"⟩ ∧
    (iconsForRawUV (6.4 : ℚ)).length = 6 := by
  have hr : jsRound (6.4 : ℚ) = 6 := by
    unfold jsRound
    rw [Int.floor_eq_iff]
    constructor <;> norm_num
  refine ⟨hr, ?_, ?_⟩
  · rw [classifyRawUV, hr]
    norm_num [getUVMessage, jsLe, jsGe]
  · rw [iconsForRawUV, hr]
    norm_num [iconsToShow, jsLe, allIcons]
